import Mathlib

/-!
Verification development for the applicant record reconciliation and
status-progression engine of the `cio` repository
(`cio/src/applicants.rs`, with webhook plumbing in `webhooky/src/main.rs`).

The Rust code is shallowly embedded: Rust `String` values become `List Char`,
status strings compared against `crate::applicant_status::Status::X.to_string()`
become a closed enum, timestamps and dates become integers (seconds / day
numbers), and every external collaborator (database row, workspace record,
e-signature provider, spreadsheet rows) becomes an explicit input to the pure
state-transformation core of each operation.  Side effects (provider calls,
chat notifications) are reflected as explicit outputs (counters / booleans).
-/

namespace Cio

/-- A Rust `String`, embedded as its character list. -/
abbrev Str := List Char

/-- Character list of a Lean string literal (used to embed Rust string literals). -/
def strL (s : String) : Str := s.data

/-- The ASCII apostrophe character (written via its code point). -/
def apos : Char := Char.ofNat 39

/-- Rust `str::trim`: drop leading and trailing whitespace. -/
def trimStr (l : Str) : Str :=
  ((l.dropWhile Char.isWhitespace).reverse.dropWhile Char.isWhitespace).reverse

/-- Rust `str::to_lowercase` (character-wise, as used on ASCII handles here). -/
def toLowerStr (l : Str) : Str := l.map Char.toLower

/-- Fuel-indexed worker for `trimStartMatches` (fuel keeps recursion structural). -/
def trimStartAux (pat : Str) : Nat → Str → Str
  | 0, l => l
  | fuel + 1, l =>
    if pat ≠ [] ∧ pat.isPrefixOf l then trimStartAux pat fuel (l.drop pat.length) else l

/-- Rust `str::trim_start_matches(pat)`: repeatedly strip the prefix `pat`. -/
def trimStartMatches (pat l : Str) : Str := trimStartAux pat l.length l

/-- Rust `str::trim_start_matches(c)` for a single character. -/
def trimStartChar (c : Char) (l : Str) : Str := l.dropWhile (· = c)

/-- Rust `str::trim_end_matches(c)` for a single character. -/
def trimEndChar (c : Char) (l : Str) : Str := (l.reverse.dropWhile (· = c)).reverse

/-- Fuel-indexed worker for `removeAll`. -/
def removeAllAux (pat : Str) : Nat → Str → Str
  | 0, l => l
  | _ + 1, [] => []
  | fuel + 1, c :: rest =>
    if pat ≠ [] ∧ pat.isPrefixOf (c :: rest) then
      removeAllAux pat fuel ((c :: rest).drop pat.length)
    else
      c :: removeAllAux pat fuel rest

/-- Rust `str::replace(pat, "")`: delete every (leftmost, non-overlapping) occurrence. -/
def removeAll (pat l : Str) : Str := removeAllAux pat l.length l

/-- Rust `str::contains(pat)` (substring containment): `pat` occurs at some
position of `l`. -/
def containsStr (l pat : Str) : Bool :=
  (List.range (l.length + 1)).any (fun i => pat.isPrefixOf (l.drop i))

/-!
## Applicant lifecycle status

`crate::applicant_status::Status` itself is outside `src/`; only its use sites
are in `applicants.rs`.
-/

/-- Modelled from the spec: the lifecycle status enum `crate::applicant_status::Status`
(its definition is not under `src/`); §4.4 lists its states.  The code compares
status strings against `Status::X.to_string()` renderings, which are distinct
per variant, so the comparisons are embedded as equality of enum values. -/
inductive Status where
  | NeedsToBeTriaged
  | NextSteps
  | Interviewing
  | Declined
  | Deferred
  | GivingOffer
  | Onboarding
  | Hired
  | Contractor
deriving DecidableEq, Repr

/-!
## C1 / C2: status reconciliation and derivation

`NewApplicant::parse_from_row_with_columns` (applicants.rs:805-814 and 910-928)
and `Applicant::update_status` (applicants.rs:1886-1920).
-/

/-- applicants.rs:805-814: inside `parse_from_row_with_columns`, when a database
record exists — if the DB has the applicant as `Onboarding` and the status
freshly derived from the spreadsheet row is `GivingOffer`, keep `Onboarding`. -/
def mergeDbStatus (dbStatus derived : Status) : Status :=
  if dbStatus = Status.Onboarding ∧ derived = Status.GivingOffer then Status.Onboarding
  else derived

/-- applicants.rs:902-905: keep the DB start date when the row has none
(`if start_date.is_none() && a.start_date.is_some()`). -/
def mergeStartDate (rowSd dbSd : Option Int) : Option Int :=
  match rowSd with
  | none => dbSd
  | some d => some d

/-- `start_date.is_some() && start_date.unwrap() <= Utc::now().date()`
(dates embedded as integer day numbers). -/
def startDateDue (sd : Option Int) (today : Int) : Bool :=
  match sd with
  | some d => decide (d ≤ today)
  | none => false

/-- applicants.rs:910-928 (and identically 1889-1911): the two ordered automatic
status-derivation rules — more than one interview moves `NextSteps` /
`NeedsToBeTriaged` to `Interviewing`; a reached start date moves `Onboarding` /
`GivingOffer` to `Hired`. -/
def deriveStatusRules (status : Status) (numInterviews : Nat) (sd : Option Int) (today : Int) :
    Status :=
  let s1 :=
    if numInterviews > 1 ∧ (status = Status.NextSteps ∨ status = Status.NeedsToBeTriaged) then
      Status.Interviewing
    else status
  if (s1 = Status.Onboarding ∨ s1 = Status.GivingOffer) ∧ startDateDue sd today = true then
    Status.Hired
  else s1

/-- The status part of one `parse_from_row_with_columns` reconciliation pass:
merge the freshly derived row status against the DB record (when one exists),
merge the start date, then apply the automatic derivation rules
(applicants.rs:779-928). -/
def reconcileStatus (dbStatus : Option Status) (derived : Status) (numInterviews : Nat)
    (rowSd dbSd : Option Int) (today : Int) : Status :=
  let merged :=
    match dbStatus with
    | some db => mergeDbStatus db derived
    | none => derived
  deriveStatusRules merged numInterviews (mergeStartDate rowSd dbSd) today

/-- `Applicant::update_status` (applicants.rs:1886-1920): apply the two rules to
the stored status, tracking `send_notification`; returns the new status and
whether a status-changed chat notification is emitted. -/
def update_status (status : Status) (numInterviews : Nat) (sd : Option Int) (today : Int) :
    Status × Bool :=
  let send0 := false
  let send1 :=
    if numInterviews > 1 ∧ (status = Status.NextSteps ∨ status = Status.NeedsToBeTriaged) then
      decide (status ≠ Status.Interviewing)
    else send0
  let status1 :=
    if numInterviews > 1 ∧ (status = Status.NextSteps ∨ status = Status.NeedsToBeTriaged) then
      Status.Interviewing
    else status
  let send2 :=
    if (status1 = Status.Onboarding ∨ status1 = Status.GivingOffer) ∧ startDateDue sd today = true
    then decide (status1 ≠ Status.Hired)
    else send1
  let status2 :=
    if (status1 = Status.Onboarding ∨ status1 = Status.GivingOffer) ∧ startDateDue sd today = true
    then Status.Hired
    else status1
  (status2, send2)

/-- C1: during reconciliation against an existing DB record, a DB status of
`Onboarding` with a freshly derived `GivingOffer` is kept as `Onboarding`
(applicants.rs:805-814); over the whole reconciliation pass the status never
comes out as `GivingOffer` when the DB had `Onboarding` (no regression), and
when the hired rule does not fire it stays exactly `Onboarding`. -/
theorem c1_no_regression_onboarding_to_giving_offer (derived : Status) (numInterviews : Nat)
    (rowSd dbSd : Option Int) (today : Int) :
    mergeDbStatus Status.Onboarding Status.GivingOffer = Status.Onboarding ∧
    reconcileStatus (some Status.Onboarding) derived numInterviews rowSd dbSd today ≠
      Status.GivingOffer ∧
    (startDateDue (mergeStartDate rowSd dbSd) today = false →
      reconcileStatus (some Status.Onboarding) Status.GivingOffer numInterviews rowSd dbSd today =
        Status.Onboarding) := by
  refine ⟨rfl, ?_, ?_⟩
  · unfold reconcileStatus deriveStatusRules mergeDbStatus
    cases derived <;> simp <;> split <;> simp_all
  · intro h
    unfold reconcileStatus deriveStatusRules mergeDbStatus
    simp [h]

/-- Closed witness for `c1_no_regression_onboarding_to_giving_offer`. -/
theorem c1_no_regression_onboarding_to_giving_offer_witness :
    reconcileStatus (some Status.Onboarding) Status.GivingOffer 0 none none 0 =
      Status.Onboarding :=
  (c1_no_regression_onboarding_to_giving_offer Status.GivingOffer 0 none none 0).2.2 (by decide)

/-- C2: `Applicant::update_status` changes the stored status exactly per the two
ordered rules (its result coincides with the derivation rules embedded from
applicants.rs:910-928), and it emits the status-changed notification exactly
when the resulting status differs from the stored one. -/
theorem c2_update_status_rules_and_notification (status : Status) (numInterviews : Nat)
    (sd : Option Int) (today : Int) :
    (update_status status numInterviews sd today).1 =
      deriveStatusRules status numInterviews sd today ∧
    ((update_status status numInterviews sd today).2 = true ↔
      (update_status status numInterviews sd today).1 ≠ status) := by
  unfold update_status deriveStatusRules
  by_cases h1 :
      numInterviews > 1 ∧ (status = Status.NextSteps ∨ status = Status.NeedsToBeTriaged)
  · rcases h1.2 with h | h <;> subst h <;> simp_all
  · simp only [if_neg h1]
    by_cases h2 :
        (status = Status.Onboarding ∨ status = Status.GivingOffer) ∧ startDateDue sd today = true
    · rcases h2.1 with h | h <;> subst h <;> simp_all
    · simp [h2]

/-- Closed witness for `c2_update_status_rules_and_notification`. -/
theorem c2_update_status_rules_and_notification_witness :
    (update_status Status.Onboarding 0 (some 0) 1).1 =
      deriveStatusRules Status.Onboarding 0 (some 0) 1 ∧
    ((update_status Status.Onboarding 0 (some 0) 1).2 = true ↔
      (update_status Status.Onboarding 0 (some 0) 1).1 ≠ Status.Onboarding) :=
  c2_update_status_rules_and_notification Status.Onboarding 0 (some 0) 1

/-!
## C3: envelope creation gates

`Applicant::do_docusign_offer` (applicants.rs:4418-4538) and
`Applicant::do_docusign_piia` (applicants.rs:4713-4847).
-/

/-- An envelope as returned by the e-signature provider (the fields these
operations store back on the applicant). -/
structure EnvelopeData where
  envelope_id : Str
  status : Str
deriving DecidableEq, Repr

/-- The envelope sub-record stored on the applicant for one envelope kind
(`docusign_envelope_id` / `docusign_envelope_status`, and likewise the
`_piia_` pair). -/
structure EnvelopeRecord where
  envId : Str
  envStatus : Str
deriving DecidableEq, Repr

/-- `Applicant::do_docusign_offer` (applicants.rs:4418-4538), reduced to its
effect on the offer envelope sub-record.  Inputs: the applicant status (after
the airtable refresh), the stored sub-record, the envelope the provider would
return from `create_envelope`, and the status `get_envelope` would report on
the polling path.  Output: how many times `create_envelope` is called, and the
resulting sub-record. -/
def do_docusign_offer (status : Status) (st : EnvelopeRecord) (created : EnvelopeData)
    (polledStatus : Str) : Nat × EnvelopeRecord :=
  if status ≠ Status.GivingOffer ∧ status ≠ Status.Onboarding ∧ status ≠ Status.Hired then
    (0, st)
  else if st.envId = [] ∧ status = Status.GivingOffer then
    (1, { envId := created.envelope_id, envStatus := created.status })
  else if st.envId ≠ [] then
    -- polling path: `update_applicant_from_docusign_offer_envelope` stores the
    -- polled status; it never calls `create_envelope`
    (0, { st with envStatus := polledStatus })
  else
    (0, st)

/-- `Applicant::do_docusign_piia` (applicants.rs:4713-4847), reduced the same
way for the employee-agreements envelope sub-record. -/
def do_docusign_piia (status : Status) (st : EnvelopeRecord) (created : EnvelopeData)
    (polledStatus : Str) : Nat × EnvelopeRecord :=
  if status ≠ Status.GivingOffer ∧ status ≠ Status.Onboarding ∧ status ≠ Status.Hired then
    (0, st)
  else if st.envId = [] ∧ status = Status.GivingOffer then
    (1, { envId := created.envelope_id, envStatus := created.status })
  else if st.envId ≠ [] then
    (0, { st with envStatus := polledStatus })
  else
    (0, st)

/-- C3: for each envelope kind independently, `create_envelope` is called
exactly when the applicant status is `GivingOffer` and that kind's stored
envelope id is still empty; on creation the returned id and status are stored;
a non-empty stored id never leads to a second creation. -/
theorem c3_envelope_created_exactly_once (status : Status) (st : EnvelopeRecord)
    (created : EnvelopeData) (polledStatus : Str) :
    ((do_docusign_offer status st created polledStatus).1 =
        if status = Status.GivingOffer ∧ st.envId = [] then 1 else 0) ∧
    (status = Status.GivingOffer ∧ st.envId = [] →
      (do_docusign_offer status st created polledStatus).2 =
        { envId := created.envelope_id, envStatus := created.status }) ∧
    (st.envId ≠ [] → (do_docusign_offer status st created polledStatus).1 = 0) ∧
    ((do_docusign_piia status st created polledStatus).1 =
        if status = Status.GivingOffer ∧ st.envId = [] then 1 else 0) ∧
    (status = Status.GivingOffer ∧ st.envId = [] →
      (do_docusign_piia status st created polledStatus).2 =
        { envId := created.envelope_id, envStatus := created.status }) ∧
    (st.envId ≠ [] → (do_docusign_piia status st created polledStatus).1 = 0) := by
  unfold do_docusign_offer do_docusign_piia
  cases status <;> by_cases h : st.envId = [] <;> simp_all

/-- Closed witness for `c3_envelope_created_exactly_once`: an applicant in
`GivingOffer` with an empty stored envelope id gets the provider's returned
envelope id and status stored. -/
theorem c3_envelope_created_exactly_once_witness :
    (do_docusign_offer Status.GivingOffer ⟨[], []⟩ ⟨strL "env-1", strL "sent"⟩ []).2 =
      { envId := strL "env-1", envStatus := strL "sent" } :=
  (c3_envelope_created_exactly_once Status.GivingOffer ⟨[], []⟩ ⟨strL "env-1", strL "sent"⟩
    []).2.1 ⟨rfl, rfl⟩

/-!
## C4: completed offer envelope handling

`Applicant::update_applicant_from_docusign_offer_envelope`
(applicants.rs:4540-4711).
-/

/-- Outcome of `update_applicant_from_docusign_offer_envelope` on the applicant
record: new lifecycle status, stored envelope status, whether the envelope
status-changed notification fires, and whether a background-check invitation is
triggered. -/
structure OfferEnvelopeOutcome where
  status : Status
  envStatus : Str
  notified : Bool
  bgInvited : Bool
deriving DecidableEq, Repr

/-- `Applicant::update_applicant_from_docusign_offer_envelope`
(applicants.rs:4540-4711), reduced to its status / notification /
background-check effects.  `envStatus` is the stored
`docusign_envelope_status`, `criminalBg` the stored
`criminal_background_check_status`, `polled` the envelope status observed from
the provider. -/
def update_applicant_from_docusign_offer_envelope (status : Status)
    (envStatus criminalBg polled : Str) : OfferEnvelopeOutcome :=
  let send := decide (envStatus ≠ polled)
  if polled ≠ strL "completed" then
    -- applicants.rs:4558-4568: only the envelope status is updated
    { status := status, envStatus := polled, notified := send, bgInvited := false }
  else if status = Status.GivingOffer then
    -- applicants.rs:4572-4584: advance to Onboarding, gate the background check
    { status := Status.Onboarding, envStatus := polled, notified := send,
      bgInvited := decide (criminalBg = []) }
  else
    { status := status, envStatus := polled, notified := send, bgInvited := false }

/-- C4: on observing a completed offer envelope the applicant is advanced to
`Onboarding` only from `GivingOffer` (re-observing while already `Onboarding`
or later changes nothing), and the background-check invitation fires only while
`criminal_background_check_status` is still empty. -/
theorem c4_offer_completion_guarded (status : Status) (envStatus criminalBg polled : Str) :
    ((update_applicant_from_docusign_offer_envelope status envStatus criminalBg polled).status =
        Status.Onboarding ↔
      (status = Status.Onboarding ∨
        (polled = strL "completed" ∧ status = Status.GivingOffer))) ∧
    (status ≠ Status.GivingOffer →
      (update_applicant_from_docusign_offer_envelope status envStatus criminalBg polled).status =
        status) ∧
    ((update_applicant_from_docusign_offer_envelope status envStatus criminalBg polled).bgInvited =
        true →
      criminalBg = [] ∧ status = Status.GivingOffer ∧ polled = strL "completed") := by
  unfold update_applicant_from_docusign_offer_envelope
  by_cases hp : polled = strL "completed" <;> by_cases hs : status = Status.GivingOffer <;>
    simp_all

/-- Closed witness for `c4_offer_completion_guarded`: a second observation of
the completed envelope while the applicant is already `Onboarding` leaves the
status at `Onboarding` and triggers no background-check invitation. -/
theorem c4_offer_completion_guarded_witness :
    (update_applicant_from_docusign_offer_envelope Status.Onboarding (strL "completed")
        (strL "requested") (strL "completed")).status = Status.Onboarding :=
  (c4_offer_completion_guarded Status.Onboarding (strL "completed") (strL "requested")
    (strL "completed")).2.1 (by decide)

/-!
## C5 / C6: review scoring reconciliation

`Applicant::update_reviews_scoring` (applicants.rs:1958-2115),
`update_applications_with_scoring_forms` (applicants.rs:3354-3430) and
`update_applications_with_scoring_results` (applicants.rs:3432-3588).
-/

/-- The ten scoring counters on an applicant (`scoring_*_count`, i32 in the
source). -/
structure Scoring where
  evaluations : Int
  enthusiastic_yes : Int
  yes : Int
  pass : Int
  no : Int
  not_applicable : Int
  insufficient_experience : Int
  inapplicable_experience : Int
  job_function_yet_needed : Int
  underwhelming_materials : Int
deriving DecidableEq, Repr

/-- All counters zero (applicants.rs:1967-1977 / 3527-3537 / 3571-3581). -/
def zeroScoring : Scoring := ⟨0, 0, 0, 0, 0, 0, 0, 0, 0, 0⟩

/-- One review record (`crate::applicant_reviews::ApplicantReview` as consumed
here: the reviewer, the evaluation text, and the value fields). -/
structure ReviewRec where
  reviewer : Str
  evaluation : Str
  value_reflected : Str
  value_violated : Str
  values_in_tension : List Str
deriving DecidableEq, Repr

/-- The slice of an applicant record that `update_reviews_scoring` touches. -/
structure ReviewApplicant where
  status : Status
  link_to_reviews : List Str
  scoring : Scoring
  scorers : List Str
  scorers_completed : List Str
  value_reflected : Str
  value_violated : Str
  values_in_tension : List Str
deriving DecidableEq, Repr

/-- `record.fields.evaluation.to_lowercase().starts_with(p)`. -/
def evalStartsWith (p : String) (e : Str) : Bool := (strL p).isPrefixOf (toLowerStr e)

/-- applicants.rs:1994-2004 / 2032-2042: fold a review's non-empty value fields
into the applicant. -/
def applyReviewValues (r : ReviewRec) (a : ReviewApplicant) : ReviewApplicant :=
  let a := if r.value_reflected ≠ [] then { a with value_reflected := r.value_reflected } else a
  let a := if r.value_violated ≠ [] then { a with value_violated := r.value_violated } else a
  if r.values_in_tension ≠ [] then { a with values_in_tension := r.values_in_tension } else a

/-- Remove the first occurrence of `x` (the source computes `position` and
calls `remove`, guarded by `contains`; applicants.rs:2104-2108). -/
def removeFirstOcc (x : Str) : List Str → List Str
  | [] => []
  | y :: ys => if y = x then ys else y :: removeFirstOcc x ys

/-- applicants.rs:2044-2096: the counter increments for one review, keyed on the
lowercased evaluation text. -/
def applyReviewCounters (r : ReviewRec) (s : Scoring) : Scoring :=
  let s := { s with evaluations := s.evaluations + 1 }
  let s :=
    if evalStartsWith "emphatic yes:" r.evaluation then
      { s with enthusiastic_yes := s.enthusiastic_yes + 1 } else s
  let s := if evalStartsWith "yes:" r.evaluation then { s with yes := s.yes + 1 } else s
  let s := if evalStartsWith "pass:" r.evaluation then { s with pass := s.pass + 1 } else s
  let s := if evalStartsWith "no:" r.evaluation then { s with no := s.no + 1 } else s
  let s :=
    if evalStartsWith "n/a:" r.evaluation then
      { s with not_applicable := s.not_applicable + 1 } else s
  let s :=
    if evalStartsWith "insufficient experience" r.evaluation then
      { s with insufficient_experience := s.insufficient_experience + 1 } else s
  let s :=
    if evalStartsWith "inapplicable experience" r.evaluation then
      { s with inapplicable_experience := s.inapplicable_experience + 1 } else s
  let s :=
    if evalStartsWith "job function not yet needed" r.evaluation then
      { s with job_function_yet_needed := s.job_function_yet_needed + 1 } else s
  if evalStartsWith "underwhelming materials" r.evaluation then
    { s with underwhelming_materials := s.underwhelming_materials + 1 } else s

/-- applicants.rs:2098-2108: mark the reviewer completed (deduplicated) and drop
them from the assigned scorers if present. -/
def applyReviewScorers (r : ReviewRec) (a : ReviewApplicant) : ReviewApplicant :=
  let a :=
    if r.reviewer ∉ a.scorers_completed then
      { a with scorers_completed := a.scorers_completed ++ [r.reviewer] }
    else a
  if r.reviewer ∈ a.scorers then { a with scorers := removeFirstOcc r.reviewer a.scorers } else a

/-- applicants.rs:2024-2109: fold one review into the applicant — values,
counter increments, completion bookkeeping for the reviewer. -/
def applyReview (r : ReviewRec) (a : ReviewApplicant) : ReviewApplicant :=
  let a := applyReviewValues r a
  applyReviewScorers r { a with scoring := applyReviewCounters r a.scoring }

/-- `Applicant::update_reviews_scoring` (applicants.rs:1958-2115).  `fetch`
resolves a linked review record id to the review record the workspace returns
for it. -/
def update_reviews_scoring (fetch : Str → ReviewRec) (a : ReviewApplicant) : ReviewApplicant :=
  if a.link_to_reviews = [] then a
  else
    let a := { a with scoring := zeroScoring }
    if a.status = Status.Onboarding ∨ a.status = Status.Hired then
      -- applicants.rs:1983-2021: values folded in, records deleted, counters
      -- left at zero
      a.link_to_reviews.foldl (fun acc rid => applyReviewValues (fetch rid) acc) a
    else
      a.link_to_reviews.foldl (fun acc rid => applyReview (fetch rid) acc) a

/-- One row of scoring results from the tracking sheet
(applicants.rs:3474-3515): the applicant email plus the parsed counters and
value fields. -/
structure ScoringRow where
  email : Str
  scoring : Scoring
  value_reflected : Str
  value_violated : Str
  values_in_tension : List Str
deriving DecidableEq, Repr

/-- The slice of an applicant record that `update_applications_with_scoring_results`
touches. -/
structure ScoredApplicant where
  email : Str
  status : Status
  scoring : Scoring
  value_reflected : Str
  value_violated : Str
  values_in_tension : List Str
deriving DecidableEq, Repr

/-- applicants.rs:3524-3556: apply one matching sheet row to an applicant —
counters are zeroed for `Onboarding` / `Hired`, otherwise taken from the row;
value fields always come from the row. -/
def applyScoringRow (row : ScoringRow) (a : ScoredApplicant) : ScoredApplicant :=
  let a :=
    if a.status = Status.Onboarding ∨ a.status = Status.Hired then
      { a with scoring := zeroScoring }
    else
      { a with scoring := row.scoring }
  { a with
    value_reflected := row.value_reflected
    value_violated := row.value_violated
    values_in_tension := row.values_in_tension }

/-- applicants.rs:3464-3559: every sheet row is applied, in order, to the
applicants whose email matches it. -/
def scoringResultsRowsPass (rows : List ScoringRow) (a : ScoredApplicant) : ScoredApplicant :=
  rows.foldl (fun acc row => if row.email = acc.email then applyScoringRow row acc else acc) a

/-- applicants.rs:3562-3585: the final sweep — every applicant whose status is
`Onboarding` or `Hired` gets all counters zeroed. -/
def scoringResultsZeroSweep (a : ScoredApplicant) : ScoredApplicant :=
  if a.status = Status.Onboarding ∨ a.status = Status.Hired then
    { a with scoring := zeroScoring }
  else a

/-- `update_applications_with_scoring_results` (applicants.rs:3432-3588): the
row pass over all applicants followed by the zero-out sweep. -/
def update_applications_with_scoring_results (rows : List ScoringRow)
    (apps : List ScoredApplicant) : List ScoredApplicant :=
  (apps.map (scoringResultsRowsPass rows)).map scoringResultsZeroSweep

/-- Applying a sheet row never changes an applicant's status. -/
theorem applyScoringRow_status (row : ScoringRow) (a : ScoredApplicant) :
    (applyScoringRow row a).status = a.status := by
  unfold applyScoringRow
  split <;> rfl

/-- The row pass never changes an applicant's status. -/
theorem scoringResultsRowsPass_status (rows : List ScoringRow) (a : ScoredApplicant) :
    (scoringResultsRowsPass rows a).status = a.status := by
  unfold scoringResultsRowsPass
  induction rows generalizing a with
  | nil => rfl
  | cons r rs ih =>
    simp only [List.foldl_cons]
    rw [ih]
    split <;> simp [applyScoringRow_status]

/-- C5: after `update_applications_with_scoring_results` runs, every applicant
whose status is `Onboarding` or `Hired` has all scoring counters equal to 0,
regardless of the input rows (and hence of the review records they were
computed from). -/
theorem c5_scoring_zeroed_for_onboarding_hired (rows : List ScoringRow)
    (apps : List ScoredApplicant) (a : ScoredApplicant)
    (ha : a ∈ update_applications_with_scoring_results rows apps)
    (hs : a.status = Status.Onboarding ∨ a.status = Status.Hired) :
    a.scoring = zeroScoring := by
  unfold update_applications_with_scoring_results at ha
  rcases List.mem_map.mp ha with ⟨b, -, rfl⟩
  unfold scoringResultsZeroSweep at hs ⊢
  split at hs <;> simp_all

/-- Closed witness for `c5_scoring_zeroed_for_onboarding_hired`: an `Onboarding`
applicant carrying non-zero counters comes out of the reconciliation with all
counters zeroed, even with no matching sheet row. -/
theorem c5_scoring_zeroed_for_onboarding_hired_witness :
    ((⟨strL "a@b.c", Status.Onboarding, ⟨3, 1, 1, 0, 1, 0, 0, 0, 0, 0⟩, [], [], []⟩ :
        ScoredApplicant) ∈
      update_applications_with_scoring_results []
        [⟨strL "a@b.c", Status.Onboarding, ⟨3, 1, 1, 0, 1, 0, 0, 0, 0, 0⟩, [], [], []⟩]) = False ∧
    (update_applications_with_scoring_results []
        [⟨strL "a@b.c", Status.Onboarding, ⟨3, 1, 1, 0, 1, 0, 0, 0, 0, 0⟩, [], [], []⟩]).head?.map
      ScoredApplicant.scoring = some zeroScoring := by
  constructor
  · simp only [eq_iff_iff, iff_false]
    intro hmem
    have h :=
      c5_scoring_zeroed_for_onboarding_hired []
        [⟨strL "a@b.c", Status.Onboarding, ⟨3, 1, 1, 0, 1, 0, 0, 0, 0, 0⟩, [], [], []⟩] _ hmem
        (Or.inl rfl)
    simp [zeroScoring] at h
  · rfl

/-- applicants.rs:3371-3378 (one iteration of the `for _ in 0..5` loop): scan
the current scorers and remove the first one already in `scorers_completed`,
then break out (the indices of the cloned snapshot are off after a removal). -/
def removeFirstCompleted (completed : List Str) : List Str → List Str
  | [] => []
  | s :: rest => if s ∈ completed then rest else s :: removeFirstCompleted completed rest

/-- Iterate `removeFirstCompleted` a fixed number of times. -/
def iterRemoveCompleted (completed : List Str) : Nat → List Str → List Str
  | 0, scorers => scorers
  | n + 1, scorers => iterRemoveCompleted completed n (removeFirstCompleted completed scorers)

/-- applicants.rs:3367-3380 inside `update_applications_with_scoring_forms`:
after `scorers_completed` is replaced by the list computed from the sheet, the
five-iteration loop removes completed reviewers from `scorers`. -/
def scoringFormsScorers (completed scorers : List Str) : List Str :=
  iterRemoveCompleted completed 5 scorers

/-- Counterexample input: six reviewers, all assigned and all completed. -/
def sixScorers : List Str :=
  [strL "r1", strL "r2", strL "r3", strL "r4", strL "r5", strL "r6"]

/-- C6 counterexample: with six assigned scorers who have all completed their
review, the reconciliation's removal loop (capped at five iterations, one
removal each) leaves `r6` in `scorers` even though `r6` is also in
`scorers_completed` — the two collections are not disjoint after the pass. -/
theorem c6_scorers_disjoint_counterexample :
    scoringFormsScorers sixScorers sixScorers = [strL "r6"] ∧
    strL "r6" ∈ sixScorers := by
  constructor
  · rfl
  · simp [sixScorers]

/-- Each loop iteration drops exactly one completed entry from the count of
scorers that appear in `scorers_completed` (or leaves the list unchanged when
none is left). -/
theorem countP_removeFirstCompleted (completed : List Str) (l : List Str) :
    (removeFirstCompleted completed l).countP (fun s => decide (s ∈ completed)) =
      l.countP (fun s => decide (s ∈ completed)) - 1 := by
  induction l with
  | nil => simp [removeFirstCompleted]
  | cons s rest ih =>
    by_cases h : s ∈ completed
    · simp [removeFirstCompleted, h, List.countP_cons]
    · simp [removeFirstCompleted, h, List.countP_cons, ih]

/-- After `n` iterations the count of completed entries left in `scorers` has
dropped by `n` (truncated at zero). -/
theorem countP_iterRemoveCompleted (completed : List Str) (n : Nat) (l : List Str) :
    (iterRemoveCompleted completed n l).countP (fun s => decide (s ∈ completed)) =
      l.countP (fun s => decide (s ∈ completed)) - n := by
  induction n generalizing l with
  | zero => simp [iterRemoveCompleted]
  | succ n ih =>
    simp only [iterRemoveCompleted]
    rw [ih, countP_removeFirstCompleted]
    omega

/-- C6 (amended): the removal loop removes at most five reviewers appearing in
both collections (the first matching entry per iteration), so after the pass
`scorers` and `scorers_completed` are disjoint whenever at most five entries of
the workspace `scorers` list appear in the computed `scorers_completed`; any
excess shared reviewers survive until a later run. -/
theorem c6_scorers_disjoint_when_at_most_five (completed scorers : List Str)
    (h : scorers.countP (fun s => decide (s ∈ completed)) ≤ 5) :
    ∀ x ∈ scoringFormsScorers completed scorers, x ∉ completed := by
  intro x hx hmem
  have hzero :
      (scoringFormsScorers completed scorers).countP (fun s => decide (s ∈ completed)) = 0 := by
    unfold scoringFormsScorers
    rw [countP_iterRemoveCompleted]
    omega
  have := List.countP_eq_zero.mp hzero x hx
  simp [hmem] at this

/-- Closed witness for `c6_scorers_disjoint_when_at_most_five`: with five or
fewer shared reviewers the loop clears them all, so a completed reviewer is no
longer among the assigned scorers. -/
theorem c6_scorers_disjoint_when_at_most_five_witness :
    strL "r1" ∉ scoringFormsScorers [strL "r1"] [strL "r1", strL "r2"] := fun hmem =>
  c6_scorers_disjoint_when_at_most_five [strL "r1"] [strL "r1", strL "r2"] (by decide)
    (strL "r1") hmem (by decide)

/-!
## C7: seeding the employee record from the completed offer's form data

`Applicant::update_applicant_from_docusign_offer_envelope`,
applicants.rs:4637-4680.
-/

/-- Modelled from the spec: `crate::utils::default_date()` (the module is not
under `src/`) is a fixed sentinel date meaning "start date not yet set"; its
concrete value is irrelevant to the claims, so it is embedded as day 0. -/
def default_date : Int := 0

/-- The slice of an employee record that the offer form data can touch
(home address fields and start date). -/
structure Employee where
  home_address_street_1 : Str
  home_address_city : Str
  home_address_state : Str
  home_address_zipcode : Str
  home_address_country : Str
  start_date : Int
deriving DecidableEq, Repr

/-- Form-field names from the offer envelope, as matched at
applicants.rs:4653-4674 (the ASCII apostrophe is spliced via `apos`). -/
def fdStreet : Str := strL "Applicant" ++ [apos] ++ strL "s Street Address"

/-- Form-field name for the city. -/
def fdCity : Str := strL "Applicant" ++ [apos] ++ strL "s City"

/-- Form-field name for the state. -/
def fdState : Str := strL "Applicant" ++ [apos] ++ strL "s State"

/-- Form-field name for the postal code. -/
def fdPostal : Str := strL "Applicant" ++ [apos] ++ strL "s Postal Code"

/-- Form-field name for the country. -/
def fdCountry : Str := strL "Applicant" ++ [apos] ++ strL "s Country"

/-- Form-field name for the start date. -/
def fdStartDate : Str := strL "Start Date"

/-- applicants.rs:4653-4675: apply one form-data entry (name, value) to the
employee.  `stateMap` stands for
`crate::states::StatesMap::match_abreev_or_return_existing` and `parseDate`
for `NaiveDate::parse_from_str(.., "%m/%d/%Y")` (both outside `src/`); a date
parse failure propagates as `none` (the `?` operator). -/
def applyEmployeeFormField (stateMap : Str → Str) (parseDate : Str → Option Int)
    (e : Employee) (fd : Str × Str) : Option Employee :=
  let e := if fd.1 = fdStreet then { e with home_address_street_1 := trimStr fd.2 } else e
  let e := if fd.1 = fdCity then { e with home_address_city := trimStr fd.2 } else e
  let e := if fd.1 = fdState then { e with home_address_state := stateMap fd.2 } else e
  let e := if fd.1 = fdPostal then { e with home_address_zipcode := trimStr fd.2 } else e
  let e := if fd.1 = fdCountry then { e with home_address_country := trimStr fd.2 } else e
  if fd.1 = fdStartDate then
    (parseDate (trimStr fd.2)).map (fun d => { e with start_date := d })
  else
    some e

/-- applicants.rs:4646-4680: fold the completed offer envelope's form data into
the linked employee record — gated on
`home_address_street_1.is_empty() || start_date == default_date()`; outside the
gate the record is written back unchanged. -/
def update_employee_from_offer_form (stateMap : Str → Str) (parseDate : Str → Option Int)
    (e : Employee) (formData : List (Str × Str)) : Option Employee :=
  if e.home_address_street_1 = [] ∨ e.start_date = default_date then
    formData.foldlM (applyEmployeeFormField stateMap parseDate) e
  else
    some e

/-- C7 counterexample: an employee whose home address is already non-empty
(street `"1 Main St"`) but whose start date still equals the sentinel default
has the city field overwritten by the form data — the code gates on
street-empty OR default start date, not on the address alone. -/
theorem c7_address_overwritten_counterexample :
    (update_employee_from_offer_form (fun s => s) (fun _ => none)
        ⟨strL "1 Main St", strL "Oldtown", [], [], [], default_date⟩
        [(fdCity, strL "Newtown")]) =
      some ⟨strL "1 Main St", strL "Newtown", [], [], [], default_date⟩ ∧
    strL "1 Main St" ≠ ([] : Str) ∧
    strL "Newtown" ≠ strL "Oldtown" := by
  refine ⟨?_, by decide, by decide⟩
  rfl

/-- C7 (amended): the employee's home-address fields and start date are written
from the form data only when the street address is still empty or the start
date still equals the sentinel default; an employee with both a non-empty
street address and a non-default start date keeps every field unchanged. -/
theorem c7_employee_untouched_outside_gate (stateMap : Str → Str)
    (parseDate : Str → Option Int) (e : Employee) (formData : List (Str × Str))
    (h : ¬(e.home_address_street_1 = [] ∨ e.start_date = default_date)) :
    update_employee_from_offer_form stateMap parseDate e formData = some e := by
  unfold update_employee_from_offer_form
  rw [if_neg h]

/-- Closed witness for `c7_employee_untouched_outside_gate`. -/
theorem c7_employee_untouched_outside_gate_witness :
    update_employee_from_offer_form (fun s => s) (fun _ => none)
        ⟨strL "1 Main St", strL "Oldtown", [], [], [], 5⟩ [(fdCity, strL "Newtown")] =
      some ⟨strL "1 Main St", strL "Oldtown", [], [], [], 5⟩ :=
  c7_employee_untouched_outside_gate (fun s => s) (fun _ => none)
    ⟨strL "1 Main St", strL "Oldtown", [], [], [], 5⟩ [(fdCity, strL "Newtown")] (by decide)

/-!
## C10: github / gitlab handle parsing

`NewApplicant::parse_github_gitlab` (applicants.rs:1064-1107) and
`Applicant::parse_github_gitlab` (applicants.rs:4275-4321).
-/

/-- applicants.rs:1068-1084: the `format!("@{}", ..)` normalization of the raw
github form input in `NewApplicant::parse_github_gitlab` (this variant deletes
the substring `"github.com"`). -/
def githubNormalizeNew (s : Str) : Str :=
  let t := toLowerStr (trimStr s)
  let t := trimStartMatches (strL "https://github.com/") t
  let t := trimStartMatches (strL "http://github.com/") t
  let t := trimStartMatches (strL "https://www.github.com/") t
  let t := trimStartMatches (strL "http://www.github.com/") t
  let t := trimStartMatches (strL "www.github.com/") t
  let t := trimStartMatches (strL "github.com/") t
  let t := trimStartChar '@' t
  let t := removeAll (strL "github.com") t
  let t := trimEndChar '/' t
  let t := trimStartChar '/' t
  trimStr ('@' :: t)

/-- applicants.rs:4279-4296: the normalization in
`Applicant::parse_github_gitlab` (identical except it deletes `"github.com/"`
with the trailing slash). -/
def githubNormalizeApp (s : Str) : Str :=
  let t := toLowerStr (trimStr s)
  let t := trimStartMatches (strL "https://github.com/") t
  let t := trimStartMatches (strL "http://github.com/") t
  let t := trimStartMatches (strL "https://www.github.com/") t
  let t := trimStartMatches (strL "http://www.github.com/") t
  let t := trimStartMatches (strL "www.github.com/") t
  let t := trimStartMatches (strL "github.com/") t
  let t := trimStartChar '@' t
  let t := removeAll (strL "github.com/") t
  let t := trimEndChar '/' t
  let t := trimStartChar '/' t
  trimStr ('@' :: t)

/-- Placeholder / junk detection on the normalized handle
(applicants.rs:1086-1088 and 4298-4300). -/
def githubJunk (g : Str) : Prop :=
  g = strL "@" ∨ g = strL "@n/a" ∨ containsStr g (strL "linkedin.com") = true

instance (g : Str) : Decidable (githubJunk g) := by
  unfold githubJunk
  infer_instance

/-- The shared tail of both `parse_github_gitlab` variants: blank junk handles,
then reroute a recognized GitLab URL into the gitlab handle
(applicants.rs:1086-1103 / 4298-4316).  `lower` is `s.trim().to_lowercase()`
of the raw input, re-used to build the gitlab handle. -/
def githubGitlabSift (norm lower : Str) : Str × Str :=
  let github := if githubJunk norm then [] else norm
  if containsStr github (strL "https://gitlab.com") = true then
    ([],
      '@' :: trimEndChar '/' (trimStartChar '@' (trimStartMatches (strL "https://gitlab.com/") lower)))
  else
    (github, [])

/-- `NewApplicant::parse_github_gitlab` (applicants.rs:1064-1107): parse the
github form input into a `(github, gitlab)` handle pair. -/
def NewApplicant.parse_github_gitlab (s : Str) : Str × Str :=
  if trimStr s = [] then ([], [])
  else githubGitlabSift (githubNormalizeNew s) (toLowerStr (trimStr s))

/-- `Applicant::parse_github_gitlab` (applicants.rs:4275-4321): the same
parse applied to the stored `github` field (clearing `gitlab` otherwise). -/
def Applicant.parse_github_gitlab (s : Str) : Str × Str :=
  if trimStr s = [] then ([], [])
  else githubGitlabSift (githubNormalizeApp s) (toLowerStr (trimStr s))

/-- The sift never produces two non-empty handles, and a junk-normalized handle
always comes out as an empty github handle. -/
theorem githubGitlabSift_spec (norm lower : Str) :
    ((githubGitlabSift norm lower).1 = [] ∨ (githubGitlabSift norm lower).2 = []) ∧
    (githubJunk norm → (githubGitlabSift norm lower).1 = []) := by
  unfold githubGitlabSift
  by_cases hj : githubJunk norm
  · by_cases hg : containsStr ([] : Str) (strL "https://gitlab.com") = true <;> simp [hj, hg]
  · by_cases hg : containsStr norm (strL "https://gitlab.com") = true <;> simp [hj, hg]

/-- C10: both `parse_github_gitlab` variants return a pair of which at most one
handle is non-empty (a recognized GitLab URL clears github and fills gitlab),
and an input whose normalization is `"@"` or `"@n/a"` or contains
`"linkedin.com"` yields an empty github handle. -/
theorem c10_parse_github_gitlab_exclusive (s : Str) :
    ((NewApplicant.parse_github_gitlab s).1 = [] ∨
      (NewApplicant.parse_github_gitlab s).2 = []) ∧
    ((Applicant.parse_github_gitlab s).1 = [] ∨ (Applicant.parse_github_gitlab s).2 = []) ∧
    (githubJunk (githubNormalizeNew s) → (NewApplicant.parse_github_gitlab s).1 = []) ∧
    (githubJunk (githubNormalizeApp s) → (Applicant.parse_github_gitlab s).1 = []) := by
  unfold NewApplicant.parse_github_gitlab Applicant.parse_github_gitlab
  by_cases h : trimStr s = []
  · simp [h]
  · simp only [if_neg h]
    exact ⟨(githubGitlabSift_spec _ _).1, (githubGitlabSift_spec _ _).1,
      (githubGitlabSift_spec _ _).2, (githubGitlabSift_spec _ _).2⟩

/-- Closed witness for `c10_parse_github_gitlab_exclusive`: a LinkedIn URL
typed into the github field is dropped entirely. -/
theorem c10_parse_github_gitlab_exclusive_witness :
    (NewApplicant.parse_github_gitlab (strL "https://linkedin.com/in/someone")).1 = [] :=
  (c10_parse_github_gitlab_exclusive (strL "https://linkedin.com/in/someone")).2.2.1
    (by decide)

/-!
## C9: question segmentation

`parse_question` (applicants.rs:2593-2619) builds the regex
`q1 ++ "(?s)(.*)" ++ q2` and post-processes capture group 1.  The boundary
patterns used at the call sites are literal chunks separated by `(?s:.*)`
wildcards, so a pattern is embedded as its list of literal chunks; matching
follows the regex engine's leftmost-first semantics with greedy wildcards
(earlier wildcards maximize first, backtracking on failure).
-/

/-- All start positions (ascending) at which `pat` occurs in `l`. -/
def occList (pat l : Str) : List Nat :=
  (List.range (l.length + 1)).filter (fun i => pat.isPrefixOf (l.drop i))

/-- Whether the chunk sequence can match somewhere in `l` (a wildcard before
every chunk).  Taking each chunk's first occurrence is sufficient for
existence. -/
def canMatchIn : List Str → Str → Bool
  | [], _ => true
  | c :: cs, l =>
    match (occList c l).head? with
    | none => false
    | some p => canMatchIn cs (l.drop (p + c.length))

/-- Whether the chunk sequence can match with its first chunk anchored exactly
at the start of `l`. -/
def canMatchFrom : List Str → Str → Bool
  | [], _ => true
  | c :: cs, l => c.isPrefixOf l && canMatchIn cs (l.drop c.length)

/-- Greedy chunk placement: place each chunk as late as possible (the
backtracking priority of Perl-style greedy wildcards), subject to the
continuation `ok` accepting the end offset after the last chunk. -/
def matchChunksGreedy : List Str → Str → (Nat → Bool) → Option Nat
  | [], _, ok => if ok 0 then some 0 else none
  | c :: cs, l, ok =>
    (occList c l).reverse.findSome? (fun p =>
      (matchChunksGreedy cs (l.drop (p + c.length)) (fun e => ok (p + c.length + e))).map
        (fun e => p + c.length + e))

/-- The latest position in `l` at which the chunk sequence `q2` can start —
the greedy capture group extends to the last feasible right-boundary match
(for `q2 = []`, the empty right boundary of the final question, this is the
end of the text). -/
def lastBoundaryStart (q2 : List Str) (l : Str) : Option Nat :=
  ((List.range (l.length + 1)).filter (fun j => canMatchFrom q2 (l.drop j))).getLast?

/-- Capture group 1 of `q1 ++ "(?s)(.*)" ++ q2` on `text` under leftmost-first /
greedy semantics, or `none` when the regex does not match. -/
def questionCapture (q1 q2 : List Str) (text : Str) : Option Str :=
  match q1 with
  | [] =>
    -- empty left boundary: the match starts at position 0
    (lastBoundaryStart q2 text).map (fun j => text.take j)
  | c :: cs =>
    match ((occList c text).filter
        (fun p => canMatchIn (cs ++ q2) (text.drop (p + c.length)))).head? with
    | none => none
    | some p =>
      let l1 := text.drop (p + c.length)
      match matchChunksGreedy cs l1 (fun e => canMatchIn q2 (l1.drop e)) with
      | none => none
      | some e =>
        let rest := l1.drop e
        (lastBoundaryStart q2 rest).map (fun j => rest.take j)

/-- applicants.rs:2601-2609: post-process the captured segment — delete the
known boilerplate substrings (a 16-underscore rule, the form section labels),
strip leading colons, trim whitespace. -/
def cleanSegment (s : Str) : Str :=
  let s := removeAll (strL "________________") s
  let s := removeAll (strL "Oxide Candidate Materials: Technical Program Manager") s
  let s := removeAll (strL "Oxide Candidate Materials") s
  let s := removeAll (strL "Work sample(s)") s
  trimStr (trimStartChar ':' s)

/-- `parse_question` (applicants.rs:2593-2619): no regex match, or a cleaned
segment that is empty, yields the empty string (the source's early
`if s.is_empty() return default` returns exactly the empty cleaned value). -/
def parse_question (q1 q2 : List Str) (text : Str) : Str :=
  match questionCapture q1 q2 text with
  | none => []
  | some cap => cleanSegment cap

/-- C9: `parse_question` is total — it returns a string for every text input;
when the boundary pattern pair does not match the text the segment is the
empty string, and when the captured segment erases to nothing under the
boilerplate stripping the result also collapses to the empty string (and in
general the result is exactly the cleaned capture, never the raw noise). -/
theorem c9_parse_question_no_match_empty (q1 q2 : List Str) (text : Str) :
    (questionCapture q1 q2 text = none → parse_question q1 q2 text = []) ∧
    (∀ cap, questionCapture q1 q2 text = some cap →
      parse_question q1 q2 text = cleanSegment cap) ∧
    (∀ cap, questionCapture q1 q2 text = some cap → cleanSegment cap = [] →
      parse_question q1 q2 text = []) := by
  refine ⟨fun h => ?_, fun cap h => ?_, fun cap h hclean => ?_⟩
  · simp [parse_question, h]
  · simp [parse_question, h]
  · simp [parse_question, h, hclean]

/-- Closed witness for `c9_parse_question_no_match_empty`: a text without the
boundary pair yields the empty segment, and a segment consisting solely of a
colon and an underscore rule collapses to empty. -/
theorem c9_parse_question_no_match_empty_witness :
    parse_question [strL "Work sample(s)"] [strL "Writing samples"] (strL "unrelated text") =
      [] ∧
    parse_question [strL "Work sample(s)"] [strL "Writing samples"]
        (strL "Work sample(s):________________Writing samples") = [] := by
  constructor
  · exact
      (c9_parse_question_no_match_empty [strL "Work sample(s)"] [strL "Writing samples"]
        (strL "unrelated text")).1 (by decide)
  · exact
      (c9_parse_question_no_match_empty [strL "Work sample(s)"] [strL "Writing samples"]
        (strL "Work sample(s):________________Writing samples")).2.2
        (strL ":________________") (by decide) (by decide)

/-!
## C8: the extraction freshness gate

`Applicant::expand` (applicants.rs:3968-4026) and its
`Applicant::parse_materials` (applicants.rs:4152-4273), with the boundary
patterns from applicants.rs:48-60.  Regex literals are embedded as their chunk
lists (split at `(?s:.*)` wildcards, escapes resolved).
-/

/-- Chunk list of a regex made of literals separated by `(?s:.*)` wildcards. -/
def chunksL (ss : List String) : List Str := ss.map strL

/-- `QUESTION_TECHNICALLY_CHALLENGING` (applicants.rs:48-49). -/
def qTechnicallyChallenging : List Str :=
  chunksL ["W", "at work", "ave you found mos", "challenging", "caree", "wh", "?"]

/-- `QUESTION_WORK_PROUD_OF` (applicants.rs:50-51). -/
def qWorkProudOf : List Str :=
  chunksL ["W", "at work", "ave you done that you", "particularl", "proud o", "and why?"]

/-- `QUESTION_HAPPIEST_CAREER` (applicants.rs:52-53). -/
def qHappiestCareer : List Str :=
  chunksL ["W", "en have you been happiest in your professiona", "caree", "and why?"]

/-- `QUESTION_UNHAPPIEST_CAREER` (applicants.rs:54-55). -/
def qUnhappiestCareer : List Str :=
  chunksL ["W", "en have you been unhappiest in your professiona", "caree", "and why?"]

/-- `QUESTION_VALUE_REFLECTED` (applicants.rs:56). -/
def qValueReflected : List Str :=
  chunksL ["F", "r one of Oxide", "s values", "describe an example of ho", "it wa", "reflected",
    "particula", "body", "you", "work."]

/-- `QUESTION_VALUE_VIOLATED` (applicants.rs:57). -/
def qValueViolated : List Str :=
  chunksL ["F", "r one of Oxide", "s values", "describe an example of ho", "it wa", "violated",
    "you", "organization o", "work."]

/-- `QUESTION_VALUES_IN_TENSION` (applicants.rs:58). -/
def qValuesInTension : List Str :=
  chunksL ["F", "r a pair of Oxide", "s values", "describe a time in whic", "the tw", "values",
    "tensio", "for", "your", "and how yo", "resolved it."]

/-- `QUESTION_WHY_OXIDE` (applicants.rs:59-60). -/
def qWhyOxide : List Str :=
  chunksL ["W", "y", "do", "you", "want", "to", "work", "for", "Oxide?"]

/-- applicants.rs:4157-4188: the work-samples fallback chain. -/
def workSamplesOf (m : Str) : Str :=
  let w := parse_question (chunksL ["Work sample(s)"]) (chunksL ["Writing samples"]) m
  if w = [] then
    let w :=
      parse_question
        (chunksL ["If", "his work is entirely proprietary", "please describe it as fully as y",
          "can, providing necessary context."])
        (chunksL ["Writing samples"]) m
    if w = [] then
      let w :=
        parse_question (chunksL ["What would you have done differently?"])
          (chunksL ["Exploratory samples"]) m
      if w = [] then
        let w :=
          parse_question (chunksL ["Some questions", "o have in mind as you describe them:"])
            (chunksL ["Exploratory samples"]) m
        if w = [] then
          let w :=
            parse_question (chunksL ["Work samples"]) (chunksL ["Exploratory samples"]) m
          if w = [] then
            parse_question (chunksL ["design sample(s)"]) (chunksL ["Questionnaire"]) m
          else w
        else w
      else w
    else w
  else w

/-- applicants.rs:4191-4206: the writing-samples fallback chain. -/
def writingSamplesOf (m : Str) : Str :=
  let w := parse_question (chunksL ["Writing sample(s)"]) (chunksL ["Analysis samples"]) m
  if w = [] then
    let w :=
      parse_question
        (chunksL ["Please submit at least one writing sample (and no more tha", "three) that you feel represent",
          "you", "providin", "links if", "necessary."])
        (chunksL ["Analysis samples"]) m
    if w = [] then
      let w := parse_question (chunksL ["Writing samples"]) (chunksL ["Analysis samples"]) m
      if w = [] then
        parse_question (chunksL ["Writing sample(s)"]) (chunksL ["Code and/or design sample"]) m
      else w
    else w
  else w

/-- applicants.rs:4209-4220: the analysis-samples fallback chain.  The first
pattern in the source, `Analysis sample\(s\)$`, carries an end-of-haystack
anchor followed by the non-empty boundary `"Presentation samples"`, so that
regex can never match and the chain always proceeds to the fallbacks. -/
def analysisSamplesOf (m : Str) : Str :=
  let a :=
    parse_question
      (chunksL ["please recount a", "incident", "which you analyzed syste", "misbehavior",
        "including as much technical detail as you can recall."])
      (chunksL ["Presentation samples"]) m
  if a = [] then
    parse_question (chunksL ["Analysis samples"]) (chunksL ["Presentation samples"]) m
  else a

/-- applicants.rs:4223-4234: the presentation-samples fallback chain. -/
def presentationSamplesOf (m : Str) : Str :=
  let p := parse_question (chunksL ["Presentation sample(s)"]) (chunksL ["Questionnaire"]) m
  if p = [] then
    let p :=
      parse_question
        (chunksL ["I", "you don’t have a publicl", "available presentation", "pleas",
          "describe a topic on which you have presented in th", "past."])
        (chunksL ["Questionnaire"]) m
    if p = [] then
      parse_question (chunksL ["Presentation samples"]) (chunksL ["Questionnaire"]) m
    else p
  else p

/-- applicants.rs:4237-4248: the exploratory-samples fallback chain. -/
def exploratorySamplesOf (m : Str) : Str :=
  let e := parse_question (chunksL ["Exploratory sample(s)"]) (chunksL ["Questionnaire"]) m
  if e = [] then
    let e :=
      parse_question
        (chunksL ["What’s an example o",
          "something that you needed to explore, reverse engineer, decipher or otherwise figure out a",
          "part of a program or project and how did you do it? Please provide as much detail as you ca",
          "recall."])
        (chunksL ["Questionnaire"]) m
    if e = [] then
      parse_question (chunksL ["Exploratory samples"]) (chunksL ["Questionnaire"]) m
    else e
  else e

/-- The extraction-related fields of an applicant record: the raw extracted
texts and the parsed sample / question segments. -/
structure MaterialFields where
  resume_contents : Str
  materials_contents : Str
  work_samples : Str
  writing_samples : Str
  analysis_samples : Str
  presentation_samples : Str
  exploratory_samples : Str
  question_technically_challenging : Str
  question_proud_of : Str
  question_happiest : Str
  question_unhappiest : Str
  question_value_reflected : Str
  question_value_violated : Str
  question_values_in_tension : Str
  question_why_oxide : Str
deriving DecidableEq, Repr

/-- `Applicant::parse_materials` (applicants.rs:4152-4273): re-derive every
sample and question segment from `materials_contents`. -/
def parse_materials (f : MaterialFields) : MaterialFields :=
  let m := f.materials_contents
  { f with
    work_samples := workSamplesOf m
    writing_samples := writingSamplesOf m
    analysis_samples := analysisSamplesOf m
    presentation_samples := presentationSamplesOf m
    exploratory_samples := exploratorySamplesOf m
    question_technically_challenging := parse_question qTechnicallyChallenging qWorkProudOf m
    question_proud_of := parse_question qWorkProudOf qHappiestCareer m
    question_happiest := parse_question qHappiestCareer qUnhappiestCareer m
    question_unhappiest := parse_question qUnhappiestCareer qValueReflected m
    question_value_reflected := parse_question qValueReflected qValueViolated m
    question_value_violated := parse_question qValueViolated qValuesInTension m
    question_values_in_tension := parse_question qValuesInTension qWhyOxide m
    question_why_oxide := parse_question qWhyOxide [] m }

/-- The freshness gate of applicants.rs:4000-4002 (times in seconds;
`duration_from_now = now - submitted_time`). -/
def expandGate (submitted now : Int) (whyOxide : Str) (status : Status) : Prop :=
  (now - submitted < 2 * 86400 ∨ (now - submitted < 20 * 86400 ∧ whyOxide = [])) ∧
    status ≠ Status.Declined

instance (submitted now : Int) (whyOxide : Str) (status : Status) :
    Decidable (expandGate submitted now whyOxide status) := by
  unfold expandGate
  infer_instance

/-- The extraction part of `Applicant::expand` (applicants.rs:3995-4023):
behind the freshness gate, fetch the resume and materials texts (a failed
fetch, `none`, is logged and leaves the field unchanged) and re-parse the
segments; outside the gate nothing is touched.  The boolean records whether
the expensive pipeline ran. -/
def applicant_expand (f : MaterialFields) (status : Status) (submitted now : Int)
    (resumeFetch materialsFetch : Option Str) : Bool × MaterialFields :=
  if expandGate submitted now f.question_why_oxide status then
    let f :=
      match resumeFetch with
      | some r => { f with resume_contents := r }
      | none => f
    let f :=
      match materialsFetch with
      | some r => { f with materials_contents := r }
      | none => f
    (true, parse_materials f)
  else
    (false, f)

/-- C8: `Applicant::expand` invokes the extraction / question-parsing pipeline
exactly when the submission is under 2 days old, or under 20 days old with the
"why us" question still empty, and the status is not `Declined`; otherwise the
extracted contents and every parsed segment field are left unchanged. -/
theorem c8_expand_freshness_gate (f : MaterialFields) (status : Status) (submitted now : Int)
    (resumeFetch materialsFetch : Option Str) :
    ((applicant_expand f status submitted now resumeFetch materialsFetch).1 = true ↔
      expandGate submitted now f.question_why_oxide status) ∧
    (¬expandGate submitted now f.question_why_oxide status →
      (applicant_expand f status submitted now resumeFetch materialsFetch).2 = f) := by
  unfold applicant_expand
  by_cases h : expandGate submitted now f.question_why_oxide status <;> simp [h]

/-- Closed witness for `c8_expand_freshness_gate`: a declined application is
not re-extracted. -/
theorem c8_expand_freshness_gate_witness :
    (applicant_expand
        ⟨[], [], [], [], [], [], [], [], [], [], [], [], [], [], []⟩ Status.Declined 0 0
        (some (strL "resume")) (some (strL "materials"))).2 =
      ⟨[], [], [], [], [], [], [], [], [], [], [], [], [], [], []⟩ :=
  (c8_expand_freshness_gate ⟨[], [], [], [], [], [], [], [], [], [], [], [], [], [], []⟩
      Status.Declined 0 0 (some (strL "resume")) (some (strL "materials"))).2
    (by decide)

end Cio
